import Mathlib

/-!
# arduino_error: `Error` and `ErrorOr<T>`

A shallow embedding of `error.h` / `error.cc`, `error_or.h`, `error_macros.h` (with the
functions of `error_macros_test.cc` that use the macros) and the matchers of
`testing/error_matchers.h`, followed by the properties established about them.

Modelling conventions.

* The C++ `int` qualifiers are embedded as `Int`.  No operation of the library
  performs arithmetic on them (they are only stored, read back and compared),
  so no overflow can occur and every machine `int` is an `Int`.
* `Error::Code` is the closed enumeration of `error.h`.
* The overloaded C++ constructors get numbered / suffixed names
  (`Error.mk0` .. `Error.mk4`, `ErrorOr.mkError`, `ErrorOr.mkCode`,
  `ErrorOr.mkDefault`, `ErrorOr.mkValue`).
* `abort()` in `ValueOrDie` is the result `none`; a normal return of `v` is
  `some v`.
* A function whose body uses the macros returns `Option R`: `some r` when it returns `r`, `none`
  when it calls `abort()`.
* The overloads of `ErrorIs` are `ErrorIs1` .. `ErrorIs4`, by number of arguments; a matcher
  matches `x` when `MatchAndExplain x` is `true`.
-/

namespace error

/-- Constant `kUnspecified` of `error.h`: the number used when no number was specified. -/
def kUnspecified : Int := -1

/-- Enumeration `Error::Code` of `error.h`, the canonical error codes. -/
inductive Code where
  | OK
  | INVALID_ARGUMENT
  | INTERNAL_ERROR
  | UNIMPLEMENTED
  | UNKNOWN
  deriving DecidableEq, Repr

/-- Class `Error` of `error.h`: its four private data members. -/
structure Error where
  canonical_code_ : Code
  library_number_ : Int
  error_number_ : Int
  subcode_ : Int
  deriving DecidableEq, Repr

namespace Error

/-- Constructor `Error(Code, int, int, int)`: initialises the four members from the arguments. -/
def mk4 (canonical_code : Code) (library_number error_number subcode : Int) : Error :=
  { canonical_code_ := canonical_code
    library_number_ := library_number
    error_number_ := error_number
    subcode_ := subcode }

/-- Constructor `Error(Code, int, int)`: delegates with `kUnspecified` as subcode. -/
def mk3 (canonical_code : Code) (library_number error_number : Int) : Error :=
  mk4 canonical_code library_number error_number kUnspecified

/-- Constructor `Error(Code, int)`: delegates with error number and subcode `kUnspecified`. -/
def mk2 (canonical_code : Code) (library_number : Int) : Error :=
  mk4 canonical_code library_number kUnspecified kUnspecified

/-- Constructor `Error(Code)`: delegates with all three qualifiers `kUnspecified`. -/
def mk1 (canonical_code : Code) : Error :=
  mk4 canonical_code kUnspecified kUnspecified kUnspecified

/-- Constructor `Error()`: delegates with `Error::OK` and all three qualifiers `kUnspecified`. -/
def mk0 : Error :=
  mk4 Code.OK kUnspecified kUnspecified kUnspecified

/-- Method `Error::Ok`: `canonical_code_ == Error::OK`. -/
def Ok (self : Error) : Bool :=
  self.canonical_code_ == Code.OK

/-- Method `Error::CanonicalCode`. -/
def CanonicalCode (self : Error) : Code :=
  self.canonical_code_

/-- Method `Error::GetError`: returns `*this`. -/
def GetError (self : Error) : Error :=
  self

/-- Method `Error::LibraryNumber`. -/
def LibraryNumber (self : Error) : Int :=
  self.library_number_

/-- Method `Error::ErrorNumber`. -/
def ErrorNumber (self : Error) : Int :=
  self.error_number_

/-- Method `Error::Subcode`. -/
def Subcode (self : Error) : Int :=
  self.subcode_

/-- Method `Error::operator==`: the conjunction of the four accessor comparisons. -/
def operator_eq (self other : Error) : Bool :=
  self.CanonicalCode == other.CanonicalCode &&
    self.LibraryNumber == other.LibraryNumber &&
    self.ErrorNumber == other.ErrorNumber && self.Subcode == other.Subcode

/-- Method `Error::operator!=`: `!(*this == other)`. -/
def operator_ne (self other : Error) : Bool :=
  !(self.operator_eq other)

end Error

/-- Class template `ErrorOr<T>` of `error_or.h`: its two private data members. -/
structure ErrorOr (T : Type) where
  error_ : Error
  value_ : T

namespace ErrorOr

variable {T : Type}

/-- Constructor `ErrorOr(Error error)`: `error_` is initialised from the argument and then
replaced by `Error(Error::UNKNOWN)` when it is Ok.  The member `value_` has no initialiser, so
it is default-initialised: `default` of `Inhabited T`. -/
def mkError [Inhabited T] (error : Error) : ErrorOr T :=
  let error_ := error
  let error_ := if error_.Ok then Error.mk1 Code.UNKNOWN else error_
  { error_ := error_, value_ := default }

/-- Constructor `ErrorOr(Error::Code error_code)`: delegates to `ErrorOr(Error(error_code))`. -/
def mkCode [Inhabited T] (error_code : Code) : ErrorOr T :=
  mkError (Error.mk1 error_code)

/-- Constructor `ErrorOr()`: delegates to `ErrorOr(Error::UNKNOWN)`. -/
def mkDefault [Inhabited T] : ErrorOr T :=
  mkCode Code.UNKNOWN

/-- Constructor `ErrorOr(T value)`: `error_(Error(Error::OK)), value_(value)`. -/
def mkValue (value : T) : ErrorOr T :=
  { error_ := Error.mk1 Code.OK, value_ := value }

/-- Method `ErrorOr<T>::Ok`: `error_.Ok()`. -/
def Ok (self : ErrorOr T) : Bool :=
  self.error_.Ok

/-- Method `ErrorOr<T>::GetError`: returns `error_`. -/
def GetError (self : ErrorOr T) : Error :=
  self.error_

/-- Method `const T &ErrorOr<T>::ValueOrDie() const`: `abort()` (the result `none`) when not
Ok, otherwise returns `value_`. -/
def ValueOrDie_const (self : ErrorOr T) : Option T :=
  if !self.Ok then none else some self.value_

/-- Method `T &ErrorOr<T>::ValueOrDie()`: `abort()` (the result `none`) when not Ok, otherwise
returns `value_`. -/
def ValueOrDie (self : ErrorOr T) : Option T :=
  if !self.Ok then none else some self.value_

/-- The objects that the four public constructors of `ErrorOr<T>` produce. -/
inductive Constructed [Inhabited T] : ErrorOr T → Prop
  | ofError (error : Error) : Constructed (mkError error)
  | ofCode (error_code : Code) : Constructed (mkCode error_code)
  | ofDefault : Constructed mkDefault
  | ofValue (value : T) : Constructed (mkValue value)

end ErrorOr

/-! ## Control flow of function bodies (`error_macros.h`)

The macros expand to statements that may leave the enclosing function early.  A statement
executed inside a function whose return type is `R` is a `Step R A`: it executes `return`,
it calls `abort()`, or it lets control continue with a value of type `A` bound. -/

/-- Capability that the macros and the matcher templates rely on (they are duck-typed in the
source): a type with the methods `Ok()` and `GetError()`.  `Error` and `ErrorOr<T>` have both. -/
class ErrorType (E : Type) where
  Ok : E → Bool
  GetError : E → Error

/-- Methods `Error::Ok` and `Error::GetError`. -/
instance Error.instErrorType : ErrorType Error where
  Ok := Error.Ok
  GetError := Error.GetError

/-- Methods `ErrorOr<T>::Ok` and `ErrorOr<T>::GetError`. -/
instance ErrorOr.instErrorType {T : Type} : ErrorType (ErrorOr T) where
  Ok := ErrorOr.Ok
  GetError := ErrorOr.GetError

/-- Implicit conversion that `return e;` applies to an operand of type `A` inside a function
whose return type is `R`. -/
class ReturnsAs (A R : Type) where
  toReturn : A → R

/-- Operand and return type agree: the value is copied. -/
instance ReturnsAs.same {A : Type} : ReturnsAs A A where
  toReturn := fun a => a

/-- An `Error` returned from a function with return type `ErrorOr<T>` goes through the converting
constructor `ErrorOr(Error error)`. -/
instance ReturnsAs.errorToErrorOr {T : Type} [Inhabited T] : ReturnsAs Error (ErrorOr T) where
  toReturn := ErrorOr.mkError

/-- Outcome of one statement inside a function with return type `R`. -/
inductive Step (R A : Type) where
  | returned (result : R)
  | aborted
  | next (a : A)

namespace Step

variable {R A B : Type}

/-- Sequencing of statements: a `return` or an `abort()` ends the body, otherwise the rest of
the body runs with the bound value. -/
def bind : Step R A → (A → Step R B) → Step R B
  | returned result, _ => returned result
  | aborted, _ => aborted
  | next a, rest => rest a

/-- Statement sequencing as a monad, so that a body is written as a `do` block. -/
instance instMonad : Monad (Step R) where
  pure := next
  bind := bind

/-- Evaluation of a call that may `abort()` (result `none`). -/
def ofCall : Option A → Step R A
  | none => aborted
  | some a => next a

/-- Result of a function whose body is `body`: the returned value, or `none` when the body
called `abort()`.  A body ends in `return`, so control cannot continue past it. -/
def run : Step R Empty → Option R
  | returned result => some result
  | aborted => none
  | next e => nomatch e

end Step

/-- Macro `RETURN_IF_ERROR(expression)`:
`{ auto error = expression; if (!error.Ok()) { return error; } }`. -/
def RETURN_IF_ERROR {E R : Type} [ErrorType E] [ReturnsAs E R] (expression : E) : Step R Unit :=
  let error := expression
  if !ErrorType.Ok error then Step.returned (ReturnsAs.toReturn error) else Step.next ()

/-- Macro `ASSIGN_OR_RETURN_IMPL(error_or_value, type_variable_name, expression)`:
`auto error_or_value = expression; if (!error_or_value.Ok()) { return error_or_value.GetError(); }
type_variable_name = error_or_value.ValueOrDie();`.  The value bound to `type_variable_name` is
the value the step continues with; `error_or_value` is a non-const local, so the non-const
overload of `ValueOrDie` is the one called. -/
def ASSIGN_OR_RETURN_IMPL {T R : Type} [ReturnsAs Error R] (expression : ErrorOr T) : Step R T :=
  let error_or_value := expression
  if !error_or_value.Ok then Step.returned (ReturnsAs.toReturn error_or_value.GetError)
  else Step.ofCall error_or_value.ValueOrDie

/-- Macro `ASSIGN_OR_RETURN(type_variable_name, expression)`: `ASSIGN_OR_RETURN_IMPL` with the
temporary named `error_or_value` followed by the line number (`APPEND_NUMBER`), which only makes
the temporary of each use distinct. -/
def ASSIGN_OR_RETURN {T R : Type} [ReturnsAs Error R] (expression : ErrorOr T) : Step R T :=
  ASSIGN_OR_RETURN_IMPL expression

/-! ### The functions of `error_macros_test.cc` -/

namespace error_macros_test

/-- Function `Error ReturnWithCode(Error::Code code) { return code; }`: the code is converted by
the constructor `Error(Code)`. -/
def ReturnWithCode (code : Code) : Error :=
  Error.mk1 code

/-- Function `ForwardWithCode`: `RETURN_IF_ERROR(Error(Error::OK));
RETURN_IF_ERROR(ReturnWithCode(code)); return Error::UNKNOWN;`. -/
def ForwardWithCode (code : Code) : Option Error :=
  Step.run do
    RETURN_IF_ERROR (Error.mk1 Code.OK)
    RETURN_IF_ERROR (ReturnWithCode code)
    Step.returned (Error.mk1 Code.UNKNOWN)

/-- Constant `kValue`. -/
def kValue : Int := 42

/-- Function `ValueOrError`: `if (code == Error::OK) { return kValue; } return code;`, the
operands converted by `ErrorOr(T)` and `ErrorOr(Error::Code)`. -/
def ValueOrError (code : Code) : ErrorOr Int :=
  if code == Code.OK then ErrorOr.mkValue kValue else ErrorOr.mkCode code

/-- Function `AssignOrForwardError`: `ASSIGN_OR_RETURN(int value, ValueOrError(code)); value++;
return Error::OK;`. -/
def AssignOrForwardError (code : Code) : Option Error :=
  Step.run do
    let mut value ← ASSIGN_OR_RETURN (ValueOrError code)
    value := value + 1
    Step.returned (Error.mk1 Code.OK)

/-- Function `ReturnOrForwardError`: `ASSIGN_OR_RETURN(int value, ValueOrError(code));
return value;`, the value converted by `ErrorOr(T)`. -/
def ReturnOrForwardError (code : Code) : Option (ErrorOr Int) :=
  Step.run do
    let value ← ASSIGN_OR_RETURN (ValueOrError code)
    Step.returned (ErrorOr.mkValue value)

/-- Function `ReturnFromPredefined`: `int value; ASSIGN_OR_RETURN(value, ValueOrError(code));
ASSIGN_OR_RETURN(value, ValueOrError(code)); return value;`.  The declaration `int value;`
leaves `value` without an initial value; `uninitialized` stands for whatever it holds. -/
def ReturnFromPredefined (uninitialized : Int) (code : Code) : Option (ErrorOr Int) :=
  Step.run do
    let mut value := uninitialized
    value ← ASSIGN_OR_RETURN (ValueOrError code)
    value ← ASSIGN_OR_RETURN (ValueOrError code)
    Step.returned (ErrorOr.mkValue value)

end error_macros_test

/-- Function with the body `RETURN_IF_ERROR(e1); RETURN_IF_ERROR(e2); return r;` and return type
`Error`: the body of `ForwardWithCode` with arbitrary operands. -/
def ReturnIfErrorTwice (e1 e2 r : Error) : Option Error :=
  Step.run do
    RETURN_IF_ERROR e1
    RETURN_IF_ERROR e2
    Step.returned r

/-- Hand-written check-then-return, following the words of the specification (section 4.3): if
the first result is not Ok return that same Error, otherwise if the second result is not Ok
return that one, otherwise return `r`. -/
def CheckThenReturn_spec (e1 e2 r : Error) : Error :=
  if e1.Ok = false then e1
  else if e2.Ok = false then e2
  else r

/-! ## Test matchers (`testing/error_matchers.h`) -/

namespace testing

/-- Class `ErrorMatcher`: its private data member. -/
structure ErrorMatcher where
  expected_error_ : Error

namespace ErrorMatcher

/-- Constructor `ErrorMatcher(Code, int, int, int)`: `expected_error_` is built from the four
arguments. -/
def mk4 (expected_code : Code)
    (expected_library_number expected_error_number expected_subcode : Int) : ErrorMatcher :=
  { expected_error_ :=
      Error.mk4 expected_code expected_library_number expected_error_number expected_subcode }

/-- Constructor `ErrorMatcher(Code, int, int)`: delegates with `kUnspecified` as subcode. -/
def mk3 (expected_code : Code) (expected_library_number expected_error_number : Int) :
    ErrorMatcher :=
  mk4 expected_code expected_library_number expected_error_number kUnspecified

/-- Constructor `ErrorMatcher(Code, int)`: delegates with error number and subcode
`kUnspecified`. -/
def mk2 (expected_code : Code) (expected_library_number : Int) : ErrorMatcher :=
  mk4 expected_code expected_library_number kUnspecified kUnspecified

/-- Constructor `ErrorMatcher(Code)`: delegates with all three qualifiers `kUnspecified`. -/
def mk1 (expected_code : Code) : ErrorMatcher :=
  mk4 expected_code kUnspecified kUnspecified kUnspecified

/-- Method `ErrorMatcher::IgnoreAllOptional`. -/
def IgnoreAllOptional (self : ErrorMatcher) : Bool :=
  self.expected_error_.LibraryNumber == kUnspecified &&
    self.expected_error_.ErrorNumber == kUnspecified &&
    self.expected_error_.Subcode == kUnspecified

/-- Method `ErrorMatcher::IgnoreSubcode`. -/
def IgnoreSubcode (self : ErrorMatcher) : Bool :=
  self.expected_error_.LibraryNumber != kUnspecified &&
    self.expected_error_.ErrorNumber != kUnspecified &&
    self.expected_error_.Subcode == kUnspecified

/-- Method `ErrorMatcher::IgnoreLibraryErrorAndSubcode`. -/
def IgnoreLibraryErrorAndSubcode (self : ErrorMatcher) : Bool :=
  self.expected_error_.LibraryNumber != kUnspecified &&
    self.expected_error_.ErrorNumber == kUnspecified &&
    self.expected_error_.Subcode == kUnspecified

/-- Method template `ErrorMatcher::MatchAndExplain`.  The `listener` argument is not used by the
body and is left out. -/
def MatchAndExplain {E : Type} [ErrorType E] (self : ErrorMatcher) (error_type : E) : Bool :=
  let error := ErrorType.GetError error_type
  let expected_error := self.expected_error_
  let expected_error :=
    if self.IgnoreAllOptional then
      Error.mk4 self.expected_error_.CanonicalCode error.LibraryNumber error.ErrorNumber
        error.Subcode
    else if self.IgnoreLibraryErrorAndSubcode then
      Error.mk4 self.expected_error_.CanonicalCode self.expected_error_.LibraryNumber
        error.ErrorNumber error.Subcode
    else if self.IgnoreSubcode then
      Error.mk4 self.expected_error_.CanonicalCode self.expected_error_.LibraryNumber
        self.expected_error_.ErrorNumber error.Subcode
    else expected_error
  expected_error.operator_eq error

end ErrorMatcher

/-- Function `ErrorIs(Code)`: the matcher `ErrorMatcher(expected_code)`. -/
def ErrorIs1 (expected_code : Code) : ErrorMatcher :=
  ErrorMatcher.mk1 expected_code

/-- Function `ErrorIs(Code, int)`. -/
def ErrorIs2 (expected_code : Code) (expected_library_number : Int) : ErrorMatcher :=
  ErrorMatcher.mk2 expected_code expected_library_number

/-- Function `ErrorIs(Code, int, int)`. -/
def ErrorIs3 (expected_code : Code) (expected_library_number expected_error_number : Int) :
    ErrorMatcher :=
  ErrorMatcher.mk3 expected_code expected_library_number expected_error_number

/-- Function `ErrorIs(Code, int, int, int)`. -/
def ErrorIs4 (expected_code : Code)
    (expected_library_number expected_error_number expected_subcode : Int) : ErrorMatcher :=
  ErrorMatcher.mk4 expected_code expected_library_number expected_error_number expected_subcode

/-- Function `IsOk()`: the matcher `ErrorMatcher(Error::OK)`. -/
def IsOk : ErrorMatcher :=
  ErrorMatcher.mk1 Code.OK

/-- Class template `ErrorOrValueMatcher<InnerMatcher>`: its data member.  The inner matcher
belongs to the test framework; it is represented by the predicate on values of `T` that the
`Matcher<T>` made from it decides. -/
structure ErrorOrValueMatcher (T : Type) where
  inner_matcher_ : T → Bool

namespace ErrorOrValueMatcher

/-- Method template `ErrorOrValueMatcher::MatchAndExplain`: `false` when `error_or` is not Ok,
otherwise the verdict of the inner matcher on `error_or.ValueOrDie()`.  The parameter
`error_or` is a non-const object, so the non-const overload of `ValueOrDie` is called; the result
is `none` when that call aborts.  The text written to the listeners is left out. -/
def MatchAndExplain {T : Type} (self : ErrorOrValueMatcher T) (error_or : ErrorOr T) :
    Option Bool :=
  if !error_or.Ok then some false
  else do
    let matcher := self.inner_matcher_
    let value ← error_or.ValueOrDie
    let is_match := matcher value
    some is_match

end ErrorOrValueMatcher

/-- Function template `IsOkAndHolds(inner_matcher)`. -/
def IsOkAndHolds {T : Type} (inner_matcher : T → Bool) : ErrorOrValueMatcher T :=
  { inner_matcher_ := inner_matcher }

end testing

/-! ## Helper lemmas -/

theorem Error.ok_iff_code (e : Error) : e.Ok = true ↔ e.canonical_code_ = Code.OK := by
  simp [Error.Ok]

theorem Error.ok_mk1_unknown : (Error.mk1 Code.UNKNOWN).Ok = false := by
  decide

theorem ErrorOr.mkError_error_not_ok {T : Type} [Inhabited T] (e : Error) :
    (ErrorOr.mkError e : ErrorOr T).error_.Ok = false := by
  unfold ErrorOr.mkError
  by_cases h : e.Ok = true
  · simp [h, Error.ok_mk1_unknown]
  · simp [h]

theorem ErrorOr.mkError_of_not_ok {T : Type} [Inhabited T] (e : Error)
    (h : e.Ok = false) : (ErrorOr.mkError e : ErrorOr T).error_ = e := by
  simp [ErrorOr.mkError, h]

theorem ErrorOr.mkError_of_ok {T : Type} [Inhabited T] (e : Error)
    (h : e.Ok = true) : (ErrorOr.mkError e : ErrorOr T).error_ = Error.mk1 Code.UNKNOWN := by
  simp [ErrorOr.mkError, h]

/-! ## Error -/

/-- C1: for every pair of Errors `a`, `b`, `a == b` is true exactly when their canonical codes,
library numbers, error numbers and subcodes are pairwise equal (the sentinel -1 included: the
qualifiers range over all integers). -/
theorem Error.operator_eq_iff_fields (a b : Error) :
    a.operator_eq b = true ↔
      (a.CanonicalCode = b.CanonicalCode ∧ a.LibraryNumber = b.LibraryNumber ∧
        a.ErrorNumber = b.ErrorNumber ∧ a.Subcode = b.Subcode) := by
  simp [Error.operator_eq, and_assoc]

/-- C2: for every Error `e`, `e.Ok()` is true exactly when `e.CanonicalCode() == OK`; and two
Errors built with the same canonical code and arbitrary (possibly different) library number,
error number and subcode have the same `Ok()` result. -/
theorem Error.ok_iff_canonical_code_ok (e : Error) (c : Code) (l n s l2 n2 s2 : Int) :
    (e.Ok = true ↔ e.CanonicalCode = Code.OK) ∧
      (Error.mk4 c l n s).Ok = (Error.mk4 c l2 n2 s2).Ok := by
  refine ⟨?_, rfl⟩
  simp [Error.Ok, Error.CanonicalCode]

/-! ## ErrorOr -/

/-- C3: the OK-collapsing rule.  An `ErrorOr<T>` constructed from the canonical code `OK`, and
one constructed from the Error object `Error(OK)`, both have `Ok() == false` and
`GetError().CanonicalCode() == UNKNOWN`. -/
theorem ErrorOr.ok_collapses_to_unknown (T : Type) [Inhabited T] :
    ((ErrorOr.mkCode Code.OK : ErrorOr T).Ok = false ∧
      (ErrorOr.mkCode Code.OK : ErrorOr T).GetError.CanonicalCode = Code.UNKNOWN) ∧
    ((ErrorOr.mkError (Error.mk1 Code.OK) : ErrorOr T).Ok = false ∧
      (ErrorOr.mkError (Error.mk1 Code.OK) : ErrorOr T).GetError.CanonicalCode
        = Code.UNKNOWN) := by
  have h : (ErrorOr.mkError (Error.mk1 Code.OK) : ErrorOr T).error_ = Error.mk1 Code.UNKNOWN :=
    ErrorOr.mkError_of_ok _ (by decide)
  simp only [ErrorOr.mkCode, ErrorOr.Ok, ErrorOr.GetError, h]
  decide

/-- C4: for every canonical code `c` other than `OK`, `ErrorOr<T>(c).Ok()` is false and
`ErrorOr<T>(c).GetError().CanonicalCode() == c`. -/
theorem ErrorOr.mkCode_keeps_non_ok_code (T : Type) [Inhabited T] (c : Code)
    (hc : c ≠ Code.OK) :
    (ErrorOr.mkCode c : ErrorOr T).Ok = false ∧
      (ErrorOr.mkCode c : ErrorOr T).GetError.CanonicalCode = c := by
  have hnot : (Error.mk1 c).Ok = false := by
    cases c <;> first | exact absurd rfl hc | decide
  have h : (ErrorOr.mkError (Error.mk1 c) : ErrorOr T).error_ = Error.mk1 c :=
    ErrorOr.mkError_of_not_ok _ hnot
  simp only [ErrorOr.mkCode, ErrorOr.Ok, ErrorOr.GetError, h, hnot]
  exact ⟨trivial, rfl⟩

/-- Witness of C4 at `T = int`, `c = INTERNAL_ERROR` (the case of the test
`ErrorOrTest.ReturnsTheContainedError`). -/
theorem ErrorOr.mkCode_keeps_non_ok_code_witness :
    Code.INTERNAL_ERROR ≠ Code.OK ∧
      ((ErrorOr.mkCode Code.INTERNAL_ERROR : ErrorOr Int).Ok = false ∧
        (ErrorOr.mkCode Code.INTERNAL_ERROR : ErrorOr Int).GetError.CanonicalCode
          = Code.INTERNAL_ERROR) :=
  ⟨by decide, ErrorOr.mkCode_keeps_non_ok_code Int Code.INTERNAL_ERROR (by decide)⟩

/-- C5: for every value `v` of `T`, the `ErrorOr<T>` constructed from `v` has `Ok() == true`,
`GetError().CanonicalCode() == OK`, and both overloads of `ValueOrDie()` return `v` (they do
not abort). -/
theorem ErrorOr.mkValue_holds_value (T : Type) (v : T) :
    (ErrorOr.mkValue v).Ok = true ∧
      (ErrorOr.mkValue v).GetError.CanonicalCode = Code.OK ∧
      (ErrorOr.mkValue v).ValueOrDie = some v ∧
      (ErrorOr.mkValue v).ValueOrDie_const = some v := by
  refine ⟨rfl, rfl, rfl, rfl⟩

/-- C6: for every `ErrorOr<T>` object `x` (any member values), each overload of `ValueOrDie()`
aborts (result `none`) exactly when `x.Ok()` is false, and when `x.Ok()` is true it returns the
stored value `value_` instead of aborting. -/
theorem ErrorOr.valueOrDie_aborts_iff_not_ok (T : Type) (x : ErrorOr T) :
    (x.ValueOrDie = none ↔ x.Ok = false) ∧
      (x.ValueOrDie_const = none ↔ x.Ok = false) ∧
      (x.Ok = true → x.ValueOrDie = some x.value_ ∧ x.ValueOrDie_const = some x.value_) := by
  cases hok : x.Ok <;> simp [ErrorOr.ValueOrDie, ErrorOr.ValueOrDie_const, hok]

/-- Witness of C6: the value-constructed `ErrorOr<int>(63)` is Ok and both overloads return 63;
the default-constructed `ErrorOr<int>` is not Ok and both overloads abort. -/
theorem ErrorOr.valueOrDie_aborts_iff_not_ok_witness :
    ((ErrorOr.mkValue (63 : Int)).ValueOrDie = some 63 ∧
        (ErrorOr.mkValue (63 : Int)).ValueOrDie_const = some 63) ∧
      (ErrorOr.mkDefault : ErrorOr Int).ValueOrDie = none ∧
      (ErrorOr.mkDefault : ErrorOr Int).ValueOrDie_const = none :=
  ⟨(ErrorOr.valueOrDie_aborts_iff_not_ok Int (ErrorOr.mkValue 63)).2.2 (by decide),
    (ErrorOr.valueOrDie_aborts_iff_not_ok Int ErrorOr.mkDefault).1.mpr (by decide),
    (ErrorOr.valueOrDie_aborts_iff_not_ok Int ErrorOr.mkDefault).2.1.mpr (by decide)⟩

/-- C7: for every `ErrorOr<T>` object `x` produced by one of its constructors (from a value,
from an Error, from a code, or by default), if `x.Ok()` is true then `x.GetError()` is
`Error(OK)`: code `OK` and library number, error number and subcode all unspecified; it also
compares equal to `Error(OK)` under `operator==`. -/
theorem ErrorOr.ok_getError_is_plain_ok (T : Type) [Inhabited T] (x : ErrorOr T)
    (hx : ErrorOr.Constructed x) (hok : x.Ok = true) :
    x.GetError = Error.mk1 Code.OK ∧
      (x.GetError.CanonicalCode = Code.OK ∧ x.GetError.LibraryNumber = kUnspecified ∧
        x.GetError.ErrorNumber = kUnspecified ∧ x.GetError.Subcode = kUnspecified) ∧
      x.GetError.operator_eq (Error.mk1 Code.OK) = true := by
  have key : x.GetError = Error.mk1 Code.OK := by
    cases hx with
    | ofError e =>
      have := ErrorOr.mkError_error_not_ok (T := T) e
      simp [ErrorOr.Ok, this] at hok
    | ofCode c =>
      have := ErrorOr.mkError_error_not_ok (T := T) (Error.mk1 c)
      simp [ErrorOr.Ok, ErrorOr.mkCode, this] at hok
    | ofDefault =>
      have := ErrorOr.mkError_error_not_ok (T := T) (Error.mk1 Code.UNKNOWN)
      simp [ErrorOr.Ok, ErrorOr.mkDefault, ErrorOr.mkCode, this] at hok
    | ofValue v => rfl
  rw [key]
  decide

/-- Witness of C7 at the value-constructed `ErrorOr<int>(63)`. -/
theorem ErrorOr.ok_getError_is_plain_ok_witness :
    ErrorOr.Constructed (ErrorOr.mkValue (63 : Int)) ∧
      (ErrorOr.mkValue (63 : Int)).Ok = true ∧
      ((ErrorOr.mkValue (63 : Int)).GetError = Error.mk1 Code.OK ∧
        ((ErrorOr.mkValue (63 : Int)).GetError.CanonicalCode = Code.OK ∧
          (ErrorOr.mkValue (63 : Int)).GetError.LibraryNumber = kUnspecified ∧
          (ErrorOr.mkValue (63 : Int)).GetError.ErrorNumber = kUnspecified ∧
          (ErrorOr.mkValue (63 : Int)).GetError.Subcode = kUnspecified) ∧
        (ErrorOr.mkValue (63 : Int)).GetError.operator_eq (Error.mk1 Code.OK) = true) :=
  ⟨ErrorOr.Constructed.ofValue 63, by decide,
    ErrorOr.ok_getError_is_plain_ok Int (ErrorOr.mkValue 63) (ErrorOr.Constructed.ofValue 63)
      (by decide)⟩

/-- C8: for every Error `e` (any code, `OK` included, and any qualifiers) the `ErrorOr<T>`
constructed from `e` has `Ok() == false`; hence an object `x` produced by one of the
constructors has `Ok()` true only if it is the object constructed from a value of `T`. -/
theorem ErrorOr.ok_only_from_value (T : Type) [Inhabited T] (e : Error) (x : ErrorOr T)
    (hx : ErrorOr.Constructed x) :
    (ErrorOr.mkError e : ErrorOr T).Ok = false ∧
      (x.Ok = true → ∃ v : T, x = ErrorOr.mkValue v) := by
  refine ⟨ErrorOr.mkError_error_not_ok e, fun hok => ?_⟩
  cases hx with
  | ofError e2 =>
    have := ErrorOr.mkError_error_not_ok (T := T) e2
    simp [ErrorOr.Ok, this] at hok
  | ofCode c =>
    have := ErrorOr.mkError_error_not_ok (T := T) (Error.mk1 c)
    simp [ErrorOr.Ok, ErrorOr.mkCode, this] at hok
  | ofDefault =>
    have := ErrorOr.mkError_error_not_ok (T := T) (Error.mk1 Code.UNKNOWN)
    simp [ErrorOr.Ok, ErrorOr.mkDefault, ErrorOr.mkCode, this] at hok
  | ofValue v => exact ⟨v, rfl⟩

/-- Witness of C8 at `e = Error(OK, 1, 2, 3)` and `x = ErrorOr<int>(63)`. -/
theorem ErrorOr.ok_only_from_value_witness :
    ErrorOr.Constructed (ErrorOr.mkValue (63 : Int)) ∧
      ((ErrorOr.mkError (Error.mk4 Code.OK 1 2 3) : ErrorOr Int).Ok = false ∧
        ((ErrorOr.mkValue (63 : Int)).Ok = true →
          ∃ v : Int, ErrorOr.mkValue (63 : Int) = ErrorOr.mkValue v)) :=
  ⟨ErrorOr.Constructed.ofValue 63,
    ErrorOr.ok_only_from_value Int (Error.mk4 Code.OK 1 2 3) (ErrorOr.mkValue 63)
      (ErrorOr.Constructed.ofValue 63)⟩

/-- C9: for every Error `e` whose canonical code is not `OK` (arbitrary library number, error
number and subcode), `ErrorOr<T>(e).GetError()` is `e`, unchanged in all four fields, and
compares equal to `e` under `operator==`. -/
theorem ErrorOr.mkError_keeps_non_ok_error (T : Type) [Inhabited T] (e : Error)
    (he : e.CanonicalCode ≠ Code.OK) :
    (ErrorOr.mkError e : ErrorOr T).GetError = e ∧
      ((ErrorOr.mkError e : ErrorOr T).GetError.CanonicalCode = e.CanonicalCode ∧
        (ErrorOr.mkError e : ErrorOr T).GetError.LibraryNumber = e.LibraryNumber ∧
        (ErrorOr.mkError e : ErrorOr T).GetError.ErrorNumber = e.ErrorNumber ∧
        (ErrorOr.mkError e : ErrorOr T).GetError.Subcode = e.Subcode) ∧
      (ErrorOr.mkError e : ErrorOr T).GetError.operator_eq e = true := by
  have hnot : e.Ok = false := by
    cases hok : e.Ok
    · rfl
    · exact absurd ((Error.ok_iff_code e).mp hok) he
  have key : (ErrorOr.mkError e : ErrorOr T).GetError = e :=
    ErrorOr.mkError_of_not_ok e hnot
  rw [key]
  refine ⟨rfl, ⟨rfl, rfl, rfl, rfl⟩, ?_⟩
  simp [Error.operator_eq]

/-- Witness of C9 at `T = int`, `e = Error(INTERNAL_ERROR, 1, 2, 3)` (the error of the test
`ErrorOrMatcherTest.MatchesAllAttributes`). -/
theorem ErrorOr.mkError_keeps_non_ok_error_witness :
    (Error.mk4 Code.INTERNAL_ERROR 1 2 3).CanonicalCode ≠ Code.OK ∧
      (ErrorOr.mkError (Error.mk4 Code.INTERNAL_ERROR 1 2 3) : ErrorOr Int).GetError
        = Error.mk4 Code.INTERNAL_ERROR 1 2 3 :=
  ⟨by decide,
    (ErrorOr.mkError_keeps_non_ok_error Int (Error.mk4 Code.INTERNAL_ERROR 1 2 3)
      (by decide)).1⟩

/-- C10: a default-constructed `ErrorOr<T>` has `Ok() == false` and
`GetError().CanonicalCode() == UNKNOWN`, and its `Ok()` and `GetError()` results are those of
`ErrorOr<T>(UNKNOWN)`. -/
theorem ErrorOr.mkDefault_is_unknown (T : Type) [Inhabited T] :
    (ErrorOr.mkDefault : ErrorOr T).Ok = false ∧
      (ErrorOr.mkDefault : ErrorOr T).GetError.CanonicalCode = Code.UNKNOWN ∧
      (ErrorOr.mkDefault : ErrorOr T).Ok = (ErrorOr.mkCode Code.UNKNOWN : ErrorOr T).Ok ∧
      (ErrorOr.mkDefault : ErrorOr T).GetError
        = (ErrorOr.mkCode Code.UNKNOWN : ErrorOr T).GetError := by
  have h : (ErrorOr.mkError (Error.mk1 Code.UNKNOWN) : ErrorOr T).error_
      = Error.mk1 Code.UNKNOWN :=
    ErrorOr.mkError_of_not_ok _ (by decide)
  refine ⟨?_, ?_, rfl, rfl⟩
  · simp only [ErrorOr.mkDefault, ErrorOr.mkCode, ErrorOr.Ok, h]
    decide
  · simp only [ErrorOr.mkDefault, ErrorOr.mkCode, ErrorOr.GetError, h]
    decide

/-! ## Error: constructors, comparison and `GetError` -/

/-- C11: for every code `c` and integers `l`, `n`, `s`: `Error(c)` has library number, error
number and subcode all -1; `Error(c, l)` has library number `l` and the other two -1;
`Error(c, l, n)` has library number `l`, error number `n` and subcode -1; `Error(c, l, n, s)`
has library number `l`, error number `n` and subcode `s`; in each case `CanonicalCode()` is
`c`. -/
theorem Error.constructors_set_fields (c : Code) (l n s : Int) :
    ((Error.mk1 c).CanonicalCode = c ∧ (Error.mk1 c).LibraryNumber = -1 ∧
        (Error.mk1 c).ErrorNumber = -1 ∧ (Error.mk1 c).Subcode = -1) ∧
      ((Error.mk2 c l).CanonicalCode = c ∧ (Error.mk2 c l).LibraryNumber = l ∧
        (Error.mk2 c l).ErrorNumber = -1 ∧ (Error.mk2 c l).Subcode = -1) ∧
      ((Error.mk3 c l n).CanonicalCode = c ∧ (Error.mk3 c l n).LibraryNumber = l ∧
        (Error.mk3 c l n).ErrorNumber = n ∧ (Error.mk3 c l n).Subcode = -1) ∧
      ((Error.mk4 c l n s).CanonicalCode = c ∧ (Error.mk4 c l n s).LibraryNumber = l ∧
        (Error.mk4 c l n s).ErrorNumber = n ∧ (Error.mk4 c l n s).Subcode = s) := by
  refine ⟨⟨rfl, rfl, rfl, rfl⟩, ⟨rfl, rfl, rfl, rfl⟩, ⟨rfl, rfl, rfl, rfl⟩, ⟨rfl, rfl, rfl, rfl⟩⟩

/-- C12: the default-constructed `Error()` and `Error(OK)` are both `Ok()`, are equal to each
other under `operator==` (in both orders), and have library number, error number and subcode
all equal to the unspecified sentinel -1. -/
theorem Error.default_equals_plain_ok :
    (Error.mk0.Ok = true ∧ (Error.mk1 Code.OK).Ok = true) ∧
      (Error.mk0.operator_eq (Error.mk1 Code.OK) = true ∧
        (Error.mk1 Code.OK).operator_eq Error.mk0 = true) ∧
      (Error.mk0.LibraryNumber = -1 ∧ Error.mk0.ErrorNumber = -1 ∧ Error.mk0.Subcode = -1) ∧
      ((Error.mk1 Code.OK).LibraryNumber = -1 ∧ (Error.mk1 Code.OK).ErrorNumber = -1 ∧
        (Error.mk1 Code.OK).Subcode = -1) ∧
      kUnspecified = -1 := by
  decide

/-- C13: for every pair of Errors `a`, `b`, `a != b` is the logical negation of `a == b`: it is
true exactly when `a == b` is false. -/
theorem Error.operator_ne_is_negation (a b : Error) :
    a.operator_ne b = !(a.operator_eq b) ∧
      (a.operator_ne b = true ↔ a.operator_eq b = false) := by
  cases h : a.operator_eq b <;> simp [Error.operator_ne, h]

/-- C14: for every Error `e` (any code, any qualifiers), `e.GetError()` is `e` itself: equal in
all four fields, and equal under `operator==`. -/
theorem Error.getError_returns_itself (e : Error) :
    e.GetError = e ∧
      (e.GetError.CanonicalCode = e.CanonicalCode ∧
        e.GetError.LibraryNumber = e.LibraryNumber ∧
        e.GetError.ErrorNumber = e.ErrorNumber ∧ e.GetError.Subcode = e.Subcode) ∧
      e.operator_eq e.GetError = true ∧ e.GetError.operator_eq e = true := by
  refine ⟨rfl, ⟨rfl, rfl, rfl, rfl⟩, ?_, ?_⟩ <;> simp [Error.operator_eq, Error.GetError]

/-! ## Propagation macros -/

/-- C15: for every canonical code `X`, `ForwardWithCode(X)` returns (without aborting) exactly
`Error(X)` when `X != OK`, and the fallback `Error(UNKNOWN)` when `X == OK`. -/
theorem error_macros_test.forwardWithCode_forwards_non_ok (X : Code) :
    (X ≠ Code.OK → error_macros_test.ForwardWithCode X = some (Error.mk1 X)) ∧
      (X = Code.OK →
        error_macros_test.ForwardWithCode X = some (Error.mk1 Code.UNKNOWN)) := by
  constructor
  · intro h
    cases X
    · exact absurd rfl h
    all_goals rfl
  · intro h
    subst h
    rfl

/-- Witness of C15 at the codes of the tests `ReturnIfErrorTest.ForwardsError` and
`ReturnIfErrorTest.DoesNotForwardOnOkError`. -/
theorem error_macros_test.forwardWithCode_forwards_non_ok_witness :
    error_macros_test.ForwardWithCode Code.INTERNAL_ERROR
        = some (Error.mk1 Code.INTERNAL_ERROR) ∧
      error_macros_test.ForwardWithCode Code.OK = some (Error.mk1 Code.UNKNOWN) :=
  ⟨(error_macros_test.forwardWithCode_forwards_non_ok Code.INTERNAL_ERROR).1 (by decide),
    (error_macros_test.forwardWithCode_forwards_non_ok Code.OK).2 rfl⟩

/-- C16: for every canonical code `c`, `ReturnOrForwardError(c)` returns (without aborting) an
`ErrorOr<int>` that, when `c == OK`, is `Ok()` and holds the value 42 of the source
`ValueOrError(c)` unchanged, and otherwise is not `Ok()` with `GetError()` equal to the source's
`GetError()`, whose code is `c`. -/
theorem error_macros_test.returnOrForwardError_result (c : Code) :
    (c = Code.OK →
        ∃ x : ErrorOr Int, error_macros_test.ReturnOrForwardError c = some x ∧
          x.Ok = true ∧ x.ValueOrDie = some 42 ∧
          x.ValueOrDie = (error_macros_test.ValueOrError c).ValueOrDie) ∧
      (c ≠ Code.OK →
        ∃ x : ErrorOr Int, error_macros_test.ReturnOrForwardError c = some x ∧
          x.Ok = false ∧ x.GetError = (error_macros_test.ValueOrError c).GetError ∧
          x.GetError.CanonicalCode = c) := by
  constructor
  · intro h
    subst h
    exact ⟨_, rfl, rfl, rfl, rfl⟩
  · intro h
    cases c
    · exact absurd rfl h
    all_goals exact ⟨_, rfl, rfl, rfl, rfl⟩

/-- Witness of C16 at the codes of the tests `AssignOrReturnTest.ReturnsValueWhenNoError` and
`AssignOrReturnTest.ForwardsErrorOr`. -/
theorem error_macros_test.returnOrForwardError_result_witness :
    (∃ x : ErrorOr Int, error_macros_test.ReturnOrForwardError Code.OK = some x ∧
        x.Ok = true ∧ x.ValueOrDie = some 42 ∧
        x.ValueOrDie = (error_macros_test.ValueOrError Code.OK).ValueOrDie) ∧
      (∃ x : ErrorOr Int,
        error_macros_test.ReturnOrForwardError Code.INTERNAL_ERROR = some x ∧
        x.Ok = false ∧
        x.GetError = (error_macros_test.ValueOrError Code.INTERNAL_ERROR).GetError ∧
        x.GetError.CanonicalCode = Code.INTERNAL_ERROR) :=
  ⟨(error_macros_test.returnOrForwardError_result Code.OK).1 rfl,
    (error_macros_test.returnOrForwardError_result Code.INTERNAL_ERROR).2 (by decide)⟩

/-- C17: for every canonical code `c`, `AssignOrForwardError(c)` returns (without aborting)
`Error(c)`, which is the `GetError()` of the source `ValueOrError(c)`, when `c != OK`, and
returns `Error(OK)` when `c == OK`. -/
theorem error_macros_test.assignOrForwardError_result (c : Code) :
    (c ≠ Code.OK →
        error_macros_test.AssignOrForwardError c = some (Error.mk1 c) ∧
          error_macros_test.AssignOrForwardError c
            = some (error_macros_test.ValueOrError c).GetError) ∧
      (c = Code.OK → error_macros_test.AssignOrForwardError c = some (Error.mk1 Code.OK)) := by
  constructor
  · intro h
    cases c
    · exact absurd rfl h
    all_goals exact ⟨rfl, rfl⟩
  · intro h
    subst h
    rfl

/-- Witness of C17 at the codes of the tests `AssignOrReturnTest.ForwardsError` and
`AssignOrReturnTest.AssignsWhenNoError`. -/
theorem error_macros_test.assignOrForwardError_result_witness :
    error_macros_test.AssignOrForwardError Code.INTERNAL_ERROR
        = some (Error.mk1 Code.INTERNAL_ERROR) ∧
      error_macros_test.AssignOrForwardError Code.OK = some (Error.mk1 Code.OK) :=
  ⟨((error_macros_test.assignOrForwardError_result Code.INTERNAL_ERROR).1 (by decide)).1,
    (error_macros_test.assignOrForwardError_result Code.OK).2 rfl⟩

/-- C18: for every canonical code `c` (and whatever the uninitialised `value` holds),
`ReturnFromPredefined(c)`, which uses `ASSIGN_OR_RETURN` twice in one scope on a previously
declared variable, produces the same result as `ReturnOrForwardError(c)`, which uses it once with
an inline declaration: `Ok()` holding 42 when `c == OK`, and otherwise the same non-Ok error,
`Error(c)`. -/
theorem error_macros_test.returnFromPredefined_eq_returnOrForwardError (u : Int) (c : Code) :
    error_macros_test.ReturnFromPredefined u c = error_macros_test.ReturnOrForwardError c ∧
      (c = Code.OK →
        ∃ x : ErrorOr Int, error_macros_test.ReturnFromPredefined u c = some x ∧
          x.Ok = true ∧ x.ValueOrDie = some 42) ∧
      (c ≠ Code.OK →
        ∃ x : ErrorOr Int, error_macros_test.ReturnFromPredefined u c = some x ∧
          x.Ok = false ∧ x.GetError = Error.mk1 c) := by
  refine ⟨?_, ?_, ?_⟩
  · cases c <;> rfl
  · intro h
    subst h
    exact ⟨_, rfl, rfl, rfl⟩
  · intro h
    cases c
    · exact absurd rfl h
    all_goals exact ⟨_, rfl, rfl, rfl⟩

/-- Witness of C18 at the code of the test `AssignOrReturnTest.ReturnsFromPredefined` and at
`INTERNAL_ERROR`, with 7 for the uninitialised variable. -/
theorem error_macros_test.returnFromPredefined_eq_returnOrForwardError_witness :
    (∃ x : ErrorOr Int, error_macros_test.ReturnFromPredefined 7 Code.OK = some x ∧
        x.Ok = true ∧ x.ValueOrDie = some 42) ∧
      (∃ x : ErrorOr Int,
        error_macros_test.ReturnFromPredefined 7 Code.INTERNAL_ERROR = some x ∧
        x.Ok = false ∧ x.GetError = Error.mk1 Code.INTERNAL_ERROR) :=
  ⟨(error_macros_test.returnFromPredefined_eq_returnOrForwardError 7 Code.OK).2.1 rfl,
    (error_macros_test.returnFromPredefined_eq_returnOrForwardError 7
      Code.INTERNAL_ERROR).2.2 (by decide)⟩

/-- C19: for all Errors `e1`, `e2` and `r` (arbitrary codes and qualifiers), the function with
body `RETURN_IF_ERROR(e1); RETURN_IF_ERROR(e2); return r;` returns (without aborting) what the
hand-written check-then-return returns: `e1` if `e1` is not Ok, otherwise `e2` if `e2` is not
Ok, otherwise `r`; the returned Error is the same in all four fields.  `ForwardWithCode(code)`
is this function at `Error(OK)`, `ReturnWithCode(code)` and `Error(UNKNOWN)`. -/
theorem returnIfErrorTwice_refines_check_then_return (e1 e2 r : Error) (code : Code) :
    ReturnIfErrorTwice e1 e2 r = some (CheckThenReturn_spec e1 e2 r) ∧
      (e1.Ok = false → ReturnIfErrorTwice e1 e2 r = some e1) ∧
      (e1.Ok = true → e2.Ok = false → ReturnIfErrorTwice e1 e2 r = some e2) ∧
      (e1.Ok = true → e2.Ok = true → ReturnIfErrorTwice e1 e2 r = some r) ∧
      error_macros_test.ForwardWithCode code
        = ReturnIfErrorTwice (Error.mk1 Code.OK) (error_macros_test.ReturnWithCode code)
            (Error.mk1 Code.UNKNOWN) := by
  refine ⟨?_, ?_, ?_, ?_, rfl⟩
  · cases h1 : e1.Ok <;> cases h2 : e2.Ok <;>
      simp [ReturnIfErrorTwice, CheckThenReturn_spec, RETURN_IF_ERROR, Step.run, Step.bind,
        bind, ErrorType.Ok, ReturnsAs.toReturn, h1, h2]
  · intro h1
    simp [ReturnIfErrorTwice, RETURN_IF_ERROR, Step.run, Step.bind, bind, ErrorType.Ok,
      ReturnsAs.toReturn, h1]
  · intro h1 h2
    simp [ReturnIfErrorTwice, RETURN_IF_ERROR, Step.run, Step.bind, bind, ErrorType.Ok,
      ReturnsAs.toReturn, h1, h2]
  · intro h1 h2
    simp [ReturnIfErrorTwice, RETURN_IF_ERROR, Step.run, Step.bind, bind, ErrorType.Ok,
      ReturnsAs.toReturn, h1, h2]

/-- Witness of C19 at `e1 = Error(OK, 1, 2, 3)`, `e2 = Error(INTERNAL_ERROR, 4, 5, 6)` and
`r = Error(UNKNOWN)`: the second error is returned with its qualifiers. -/
theorem returnIfErrorTwice_refines_check_then_return_witness :
    ReturnIfErrorTwice (Error.mk4 Code.OK 1 2 3) (Error.mk4 Code.INTERNAL_ERROR 4 5 6)
        (Error.mk1 Code.UNKNOWN)
      = some (Error.mk4 Code.INTERNAL_ERROR 4 5 6) :=
  (returnIfErrorTwice_refines_check_then_return (Error.mk4 Code.OK 1 2 3)
    (Error.mk4 Code.INTERNAL_ERROR 4 5 6) (Error.mk1 Code.UNKNOWN) Code.OK).2.2.1
    (by decide) (by decide)

/-! ## Test matchers -/

/-- C20: for every code `c` and every Error `x` (arbitrary library number, error number and
subcode), the one-argument matcher `ErrorIs(c)` matches `x` exactly when
`x.CanonicalCode() == c`. -/
theorem testing.errorIs1_matches_iff_code (c : Code) (x : Error) :
    (testing.ErrorIs1 c).MatchAndExplain x = true ↔ x.CanonicalCode = c := by
  have hig : (testing.ErrorIs1 c).IgnoreAllOptional = true := by
    simp [testing.ErrorIs1, testing.ErrorMatcher.mk1, testing.ErrorMatcher.mk4,
      testing.ErrorMatcher.IgnoreAllOptional, Error.mk4, Error.LibraryNumber,
      Error.ErrorNumber, Error.Subcode]
  simp only [testing.ErrorMatcher.MatchAndExplain, hig, if_true]
  simp [testing.ErrorIs1, testing.ErrorMatcher.mk1, testing.ErrorMatcher.mk4, Error.mk4,
    Error.operator_eq, Error.CanonicalCode, Error.LibraryNumber, Error.ErrorNumber,
    Error.Subcode, ErrorType.GetError, Error.GetError]
  exact eq_comm

/-! ## Helper lemmas on `ErrorMatcher::MatchAndExplain` -/

theorem testing.ErrorMatcher.match_errorOr_eq {T : Type} (m : testing.ErrorMatcher)
    (y : ErrorOr T) : m.MatchAndExplain y = m.MatchAndExplain y.GetError := by
  rfl

theorem testing.ErrorMatcher.match_all_ignored (c : Code) (x : Error) :
    (testing.ErrorMatcher.mk4 c (-1) (-1) (-1)).MatchAndExplain x = true ↔
      x.CanonicalCode = c := by
  simp [testing.ErrorMatcher.MatchAndExplain, testing.ErrorMatcher.IgnoreAllOptional,
    testing.ErrorMatcher.mk4, Error.mk4, Error.operator_eq, Error.CanonicalCode,
    Error.LibraryNumber, Error.ErrorNumber, Error.Subcode, ErrorType.GetError, Error.GetError,
    kUnspecified]
  exact eq_comm

theorem testing.ErrorMatcher.match_library_only (c : Code) (l : Int) (x : Error)
    (hl : l ≠ -1) :
    (testing.ErrorMatcher.mk4 c l (-1) (-1)).MatchAndExplain x = true ↔
      (x.CanonicalCode = c ∧ x.LibraryNumber = l) := by
  simp [testing.ErrorMatcher.MatchAndExplain, testing.ErrorMatcher.IgnoreAllOptional,
    testing.ErrorMatcher.IgnoreLibraryErrorAndSubcode,
    testing.ErrorMatcher.mk4, Error.mk4, Error.operator_eq, Error.CanonicalCode,
    Error.LibraryNumber, Error.ErrorNumber, Error.Subcode, ErrorType.GetError, Error.GetError,
    kUnspecified, hl]
  constructor
  · rintro ⟨h1, h2⟩
    exact ⟨h1.symm, h2.symm⟩
  · rintro ⟨h1, h2⟩
    exact ⟨h1.symm, h2.symm⟩

theorem testing.ErrorMatcher.match_library_and_error (c : Code) (l n : Int) (x : Error)
    (hl : l ≠ -1) (hn : n ≠ -1) :
    (testing.ErrorMatcher.mk4 c l n (-1)).MatchAndExplain x = true ↔
      (x.CanonicalCode = c ∧ x.LibraryNumber = l ∧ x.ErrorNumber = n) := by
  simp [testing.ErrorMatcher.MatchAndExplain, testing.ErrorMatcher.IgnoreAllOptional,
    testing.ErrorMatcher.IgnoreLibraryErrorAndSubcode, testing.ErrorMatcher.IgnoreSubcode,
    testing.ErrorMatcher.mk4, Error.mk4, Error.operator_eq, Error.CanonicalCode,
    Error.LibraryNumber, Error.ErrorNumber, Error.Subcode, ErrorType.GetError, Error.GetError,
    kUnspecified, hl, hn]
  constructor
  · rintro ⟨⟨h1, h2⟩, h3⟩
    exact ⟨h1.symm, h2.symm, h3.symm⟩
  · rintro ⟨h1, h2, h3⟩
    exact ⟨⟨h1.symm, h2.symm⟩, h3.symm⟩

theorem testing.ErrorMatcher.match_exact (c : Code) (l n s : Int) (x : Error)
    (h : s ≠ -1 ∨ (l = -1 ∧ n ≠ -1)) :
    (testing.ErrorMatcher.mk4 c l n s).MatchAndExplain x = true ↔
      x.operator_eq (Error.mk4 c l n s) = true := by
  have h1 : (testing.ErrorMatcher.mk4 c l n s).IgnoreAllOptional = false := by
    rcases h with h | ⟨_, h⟩ <;>
      simp [testing.ErrorMatcher.IgnoreAllOptional, testing.ErrorMatcher.mk4, Error.mk4,
        Error.LibraryNumber, Error.ErrorNumber, Error.Subcode, kUnspecified, h]
  have h2 : (testing.ErrorMatcher.mk4 c l n s).IgnoreLibraryErrorAndSubcode = false := by
    rcases h with h | ⟨_, h⟩ <;>
      simp [testing.ErrorMatcher.IgnoreLibraryErrorAndSubcode, testing.ErrorMatcher.mk4,
        Error.mk4, Error.LibraryNumber, Error.ErrorNumber, Error.Subcode, kUnspecified, h]
  have h3 : (testing.ErrorMatcher.mk4 c l n s).IgnoreSubcode = false := by
    rcases h with h | ⟨h, _⟩ <;>
      simp [testing.ErrorMatcher.IgnoreSubcode, testing.ErrorMatcher.mk4,
        Error.mk4, Error.LibraryNumber, Error.ErrorNumber, Error.Subcode, kUnspecified, h]
  simp only [testing.ErrorMatcher.MatchAndExplain, h1, h2, h3]
  simp [testing.ErrorMatcher.mk4, Error.mk4, Error.operator_eq, Error.CanonicalCode,
    Error.LibraryNumber, Error.ErrorNumber, Error.Subcode, ErrorType.GetError, Error.GetError]
  constructor
  · rintro ⟨⟨⟨h1, h2⟩, h3⟩, h4⟩
    exact ⟨⟨⟨h1.symm, h2.symm⟩, h3.symm⟩, h4.symm⟩
  · rintro ⟨⟨⟨h1, h2⟩, h3⟩, h4⟩
    exact ⟨⟨⟨h1.symm, h2.symm⟩, h3.symm⟩, h4.symm⟩

theorem testing.ErrorMatcher.match_implies_code (m : testing.ErrorMatcher) (x : Error)
    (h : m.MatchAndExplain x = true) : x.CanonicalCode = m.expected_error_.CanonicalCode := by
  unfold testing.ErrorMatcher.MatchAndExplain at h
  simp only [ErrorType.GetError, Error.GetError] at h
  split_ifs at h <;>
    simp [Error.mk4, Error.operator_eq, Error.CanonicalCode] at h <;>
    exact h.1.1.1.symm

theorem testing.errorIs_matches_built_error (c : Code) (l n s : Int)
    (h : ¬ (l = -1 ∧ n ≠ -1 ∧ s ≠ -1)) :
    (testing.ErrorIs1 c).MatchAndExplain (Error.mk4 c l n s) = true ∧
      (testing.ErrorIs2 c l).MatchAndExplain (Error.mk4 c l n s) = true ∧
      (testing.ErrorIs3 c l n).MatchAndExplain (Error.mk4 c l n s) = true ∧
      (testing.ErrorIs4 c l n s).MatchAndExplain (Error.mk4 c l n s) = true := by
  by_cases hl : l = -1 <;> by_cases hn : n = -1 <;> by_cases hs : s = -1 <;>
    simp_all [testing.ErrorIs1, testing.ErrorIs2, testing.ErrorIs3, testing.ErrorIs4,
      testing.ErrorMatcher.mk1, testing.ErrorMatcher.mk2, testing.ErrorMatcher.mk3,
      testing.ErrorMatcher.mk4, testing.ErrorMatcher.MatchAndExplain,
      testing.ErrorMatcher.IgnoreAllOptional, testing.ErrorMatcher.IgnoreLibraryErrorAndSubcode,
      testing.ErrorMatcher.IgnoreSubcode, Error.mk4, Error.operator_eq, Error.CanonicalCode,
      Error.LibraryNumber, Error.ErrorNumber, Error.Subcode, ErrorType.GetError,
      Error.GetError, kUnspecified]

/-! ## Test matchers: supplied qualifiers and the sentinel -/

/-- C21 as stated fails: the two-argument matcher `ErrorIs(INTERNAL_ERROR, -1)` matches
`Error(INTERNAL_ERROR, 13)`, whose library number 13 is not the supplied -1. -/
theorem testing.errorIs2_sentinel_library_counterexample :
    ¬ ((testing.ErrorIs2 Code.INTERNAL_ERROR (-1)).MatchAndExplain
          (Error.mk2 Code.INTERNAL_ERROR 13) = true ↔
        ((Error.mk2 Code.INTERNAL_ERROR 13).CanonicalCode = Code.INTERNAL_ERROR ∧
          (Error.mk2 Code.INTERNAL_ERROR 13).LibraryNumber = -1)) := by
  decide

/-- C21, amended: for every code `c`, every supplied library number `l` other than the sentinel
-1, and every Error `x`, the two-argument matcher `ErrorIs(c, l)` matches `x` exactly when
`x.CanonicalCode() == c` and `x.LibraryNumber() == l`, whatever the error number and subcode of
`x` are. -/
theorem testing.errorIs2_matches_iff_code_and_library (c : Code) (l : Int) (x : Error)
    (hl : l ≠ -1) :
    (testing.ErrorIs2 c l).MatchAndExplain x = true ↔
      (x.CanonicalCode = c ∧ x.LibraryNumber = l) :=
  testing.ErrorMatcher.match_library_only c l x hl

/-- Witness of the amended C21 at the matcher and errors of the test
`ErrorMatcherTest.MatchesCodeAndLibraryNumber`, with error number and subcode set. -/
theorem testing.errorIs2_matches_iff_code_and_library_witness :
    (13 : Int) ≠ -1 ∧
      (testing.ErrorIs2 Code.INTERNAL_ERROR 13).MatchAndExplain
        (Error.mk4 Code.INTERNAL_ERROR 13 42 66) = true :=
  ⟨by decide,
    (testing.errorIs2_matches_iff_code_and_library Code.INTERNAL_ERROR 13
      (Error.mk4 Code.INTERNAL_ERROR 13 42 66) (by decide)).mpr ⟨rfl, rfl⟩⟩

/-- C22 as stated fails: the four-argument matcher `ErrorIs(INTERNAL_ERROR, 13, 42, -1)` matches
`Error(INTERNAL_ERROR, 13, 42, 66)`, which is not equal to `Error(INTERNAL_ERROR, 13, 42, -1)`. -/
theorem testing.errorIs4_sentinel_subcode_counterexample :
    ¬ ((testing.ErrorIs4 Code.INTERNAL_ERROR 13 42 (-1)).MatchAndExplain
          (Error.mk4 Code.INTERNAL_ERROR 13 42 66) = true ↔
        (Error.mk4 Code.INTERNAL_ERROR 13 42 66).operator_eq
          (Error.mk4 Code.INTERNAL_ERROR 13 42 (-1)) = true) := by
  decide

/-- C22, amended: for every code `c`, all integers `l`, `n` and every supplied subcode `s` other
than the sentinel -1, and every Error `x`, the four-argument matcher `ErrorIs(c, l, n, s)`
compares every position exactly: it matches `x` exactly when `x == Error(c, l, n, s)`. -/
theorem testing.errorIs4_matches_iff_equal (c : Code) (l n s : Int) (x : Error)
    (hs : s ≠ -1) :
    (testing.ErrorIs4 c l n s).MatchAndExplain x = true ↔
      x.operator_eq (Error.mk4 c l n s) = true :=
  testing.ErrorMatcher.match_exact c l n s x (Or.inl hs)

/-- Witness of the amended C22 at the matcher and error of the test
`ErrorMatcherTest.MatchesAllAttributes`. -/
theorem testing.errorIs4_matches_iff_equal_witness :
    (66 : Int) ≠ -1 ∧
      (testing.ErrorIs4 Code.INTERNAL_ERROR 13 42 66).MatchAndExplain
        (Error.mk4 Code.INTERNAL_ERROR 13 42 66) = true :=
  ⟨by decide,
    (testing.errorIs4_matches_iff_equal Code.INTERNAL_ERROR 13 42 66
      (Error.mk4 Code.INTERNAL_ERROR 13 42 66) (by decide)).mpr (by decide)⟩

/-- C23 as stated fails: the three-argument matcher `ErrorIs(INTERNAL_ERROR, 13, -1)` matches
`Error(INTERNAL_ERROR, 13, 42)`, whose error number 42 is not the supplied -1. -/
theorem testing.errorIs3_sentinel_error_number_counterexample :
    ¬ ((testing.ErrorIs3 Code.INTERNAL_ERROR 13 (-1)).MatchAndExplain
          (Error.mk3 Code.INTERNAL_ERROR 13 42) = true ↔
        ((Error.mk3 Code.INTERNAL_ERROR 13 42).CanonicalCode = Code.INTERNAL_ERROR ∧
          (Error.mk3 Code.INTERNAL_ERROR 13 42).LibraryNumber = 13 ∧
          (Error.mk3 Code.INTERNAL_ERROR 13 42).ErrorNumber = -1)) := by
  decide

/-- C23, amended: for every code `c`, all supplied integers `l` and `n` other than the sentinel
-1, and every Error `x`, the three-argument matcher `ErrorIs(c, l, n)` matches `x` exactly when
`x.CanonicalCode() == c`, `x.LibraryNumber() == l` and `x.ErrorNumber() == n`, whatever the
subcode of `x` is (the omitted subcode is a wildcard and need not be -1). -/
theorem testing.errorIs3_matches_iff_code_library_error (c : Code) (l n : Int) (x : Error)
    (hl : l ≠ -1) (hn : n ≠ -1) :
    (testing.ErrorIs3 c l n).MatchAndExplain x = true ↔
      (x.CanonicalCode = c ∧ x.LibraryNumber = l ∧ x.ErrorNumber = n) :=
  testing.ErrorMatcher.match_library_and_error c l n x hl hn

/-- Witness of the amended C23 at the matcher of the test
`ErrorMatcherTest.MatchesCodeLibraryAndErrorNumber` and an error with subcode 66. -/
theorem testing.errorIs3_matches_iff_code_library_error_witness :
    ((13 : Int) ≠ -1 ∧ (42 : Int) ≠ -1) ∧
      (testing.ErrorIs3 Code.INTERNAL_ERROR 13 42).MatchAndExplain
        (Error.mk4 Code.INTERNAL_ERROR 13 42 66) = true :=
  ⟨by decide,
    (testing.errorIs3_matches_iff_code_library_error Code.INTERNAL_ERROR 13 42
      (Error.mk4 Code.INTERNAL_ERROR 13 42 66) (by decide) (by decide)).mpr ⟨rfl, rfl, rfl⟩⟩

/-- C24 at the failing input: `x = Error(INTERNAL_ERROR, -1, 2, 3)` is matched by
`ErrorIs(INTERNAL_ERROR)`, by `ErrorIs(INTERNAL_ERROR, -1)` and by
`ErrorIs(INTERNAL_ERROR, -1, 2, 3)`, but `ErrorIs(INTERNAL_ERROR, -1, 2)` does not match it:
dropping the subcode from the matching four-argument matcher gives a mismatch. -/
theorem testing.errorIs3_rejects_built_error_at_sentinel_library :
    (testing.ErrorIs1 Code.INTERNAL_ERROR).MatchAndExplain
        (Error.mk4 Code.INTERNAL_ERROR (-1) 2 3) = true ∧
      (testing.ErrorIs2 Code.INTERNAL_ERROR (-1)).MatchAndExplain
        (Error.mk4 Code.INTERNAL_ERROR (-1) 2 3) = true ∧
      (testing.ErrorIs4 Code.INTERNAL_ERROR (-1) 2 3).MatchAndExplain
        (Error.mk4 Code.INTERNAL_ERROR (-1) 2 3) = true ∧
      (testing.ErrorIs3 Code.INTERNAL_ERROR (-1) 2).MatchAndExplain
        (Error.mk4 Code.INTERNAL_ERROR (-1) 2 3) = false := by
  decide

/-- C25: `IsOk()` is the matcher `ErrorIs(OK)`; for every Error `x` (any qualifiers) it matches
`x` exactly when `x.Ok()`, and for every `ErrorOr<T>` object `y` it matches `y` exactly when
`y.Ok()`. -/
theorem testing.isOk_matches_iff_ok (T : Type) (x : Error) (y : ErrorOr T) :
    testing.IsOk = testing.ErrorIs1 Code.OK ∧
      (testing.IsOk.MatchAndExplain x = true ↔ x.Ok = true) ∧
      (testing.IsOk.MatchAndExplain y = true ↔ y.Ok = true) := by
  refine ⟨rfl, ?_, ?_⟩
  · rw [Error.ok_iff_code]
    exact testing.ErrorMatcher.match_all_ignored Code.OK x
  · rw [testing.ErrorMatcher.match_errorOr_eq]
    show _ ↔ y.error_.Ok = true
    rw [Error.ok_iff_code]
    exact testing.ErrorMatcher.match_all_ignored Code.OK y.error_

/-- C26: for every `ErrorIs` matcher `m` (built with 1 to 4 arguments; indeed for every
`ErrorMatcher`) and every `ErrorOr<T>` object `y`, `m` matches `y` exactly when `m` matches the
plain Error `y.GetError()`; two objects holding the same Error get the same verdict. -/
theorem testing.errorIs_on_errorOr_is_on_its_error (T : Type) (m : testing.ErrorMatcher)
    (c : Code) (l n s : Int) (y y2 : ErrorOr T) :
    (m.MatchAndExplain y = m.MatchAndExplain y.GetError) ∧
      ((testing.ErrorIs1 c).MatchAndExplain y
          = (testing.ErrorIs1 c).MatchAndExplain y.GetError ∧
        (testing.ErrorIs2 c l).MatchAndExplain y
          = (testing.ErrorIs2 c l).MatchAndExplain y.GetError ∧
        (testing.ErrorIs3 c l n).MatchAndExplain y
          = (testing.ErrorIs3 c l n).MatchAndExplain y.GetError ∧
        (testing.ErrorIs4 c l n s).MatchAndExplain y
          = (testing.ErrorIs4 c l n s).MatchAndExplain y.GetError) ∧
      (y.GetError = y2.GetError → m.MatchAndExplain y = m.MatchAndExplain y2) := by
  refine ⟨rfl, ⟨rfl, rfl, rfl, rfl⟩, fun h => ?_⟩
  rw [testing.ErrorMatcher.match_errorOr_eq m y, testing.ErrorMatcher.match_errorOr_eq m y2, h]

/-- Witness of C26: `ErrorOr<int>(Error(INTERNAL_ERROR, 13, 42, 66))` and the plain
`Error(INTERNAL_ERROR, 13, 42, 66)` are both matched by `ErrorIs(INTERNAL_ERROR, 13)`. -/
theorem testing.errorIs_on_errorOr_is_on_its_error_witness :
    (testing.ErrorIs2 Code.INTERNAL_ERROR 13).MatchAndExplain
        (ErrorOr.mkError (Error.mk4 Code.INTERNAL_ERROR 13 42 66) : ErrorOr Int)
      = (testing.ErrorIs2 Code.INTERNAL_ERROR 13).MatchAndExplain
          (ErrorOr.mkError (Error.mk4 Code.INTERNAL_ERROR 13 42 66) : ErrorOr Int).GetError :=
  (testing.errorIs_on_errorOr_is_on_its_error Int (testing.ErrorIs2 Code.INTERNAL_ERROR 13)
    Code.INTERNAL_ERROR 13 42 66
    (ErrorOr.mkError (Error.mk4 Code.INTERNAL_ERROR 13 42 66))
    (ErrorOr.mkError (Error.mk4 Code.INTERNAL_ERROR 13 42 66))).1

/-- C27: for every inner predicate `p` on `T` and every `ErrorOr<T>` object `y`,
`IsOkAndHolds(p)` returns a verdict (it does not abort) and matches `y` exactly when `y.Ok()` is
true and `p` holds of the contained value; it never matches a `y` that is not Ok; and for
`ErrorOr<int>(v)` it matches with "equal to `v`" and with "greater or equal to `v`" but not
with "equal to `w`" for `w != v`. -/
theorem testing.isOkAndHolds_matches_iff (T : Type) (p : T → Bool) (y : ErrorOr T)
    (v w : Int) (hw : w ≠ v) :
    ((testing.IsOkAndHolds p).MatchAndExplain y = some (y.Ok && p y.value_)) ∧
      ((testing.IsOkAndHolds p).MatchAndExplain y = some true ↔
        (y.Ok = true ∧ p y.value_ = true)) ∧
      (y.Ok = false → (testing.IsOkAndHolds p).MatchAndExplain y = some false) ∧
      ((testing.IsOkAndHolds (fun t : Int => decide (t = v))).MatchAndExplain
          (ErrorOr.mkValue v) = some true ∧
        (testing.IsOkAndHolds (fun t : Int => decide (t ≥ v))).MatchAndExplain
          (ErrorOr.mkValue v) = some true ∧
        (testing.IsOkAndHolds (fun t : Int => decide (t = w))).MatchAndExplain
          (ErrorOr.mkValue v) = some false) := by
  have key : (testing.IsOkAndHolds p).MatchAndExplain y = some (y.Ok && p y.value_) := by
    cases hok : y.Ok <;>
      simp [testing.IsOkAndHolds, testing.ErrorOrValueMatcher.MatchAndExplain,
        ErrorOr.ValueOrDie, hok]
  refine ⟨key, ?_, ?_, ?_, ?_, ?_⟩
  · rw [key]
    simp
  · intro hok
    rw [key]
    simp [hok]
  · simp [testing.IsOkAndHolds, testing.ErrorOrValueMatcher.MatchAndExplain,
      ErrorOr.ValueOrDie, ErrorOr.mkValue, ErrorOr.Ok, Error.Ok, Error.mk1, Error.mk4]
  · simp [testing.IsOkAndHolds, testing.ErrorOrValueMatcher.MatchAndExplain,
      ErrorOr.ValueOrDie, ErrorOr.mkValue, ErrorOr.Ok, Error.Ok, Error.mk1, Error.mk4]
  · simp [testing.IsOkAndHolds, testing.ErrorOrValueMatcher.MatchAndExplain,
      ErrorOr.ValueOrDie, ErrorOr.mkValue, ErrorOr.Ok, Error.Ok, Error.mk1, Error.mk4]
    exact fun h => hw h.symm

/-- Witness of C27 at the values of the test `ErrorOrValueMatcher.MatchesValue`:
`ErrorOr<int>(666)` with "equal to 666", "greater or equal to 666" and "equal to 0". -/
theorem testing.isOkAndHolds_matches_iff_witness :
    (0 : Int) ≠ 666 ∧
      ((testing.IsOkAndHolds (fun t : Int => decide (t = 666))).MatchAndExplain
          (ErrorOr.mkValue 666) = some true ∧
        (testing.IsOkAndHolds (fun t : Int => decide (t ≥ 666))).MatchAndExplain
          (ErrorOr.mkValue 666) = some true ∧
        (testing.IsOkAndHolds (fun t : Int => decide (t = 0))).MatchAndExplain
          (ErrorOr.mkValue 666) = some false) :=
  ⟨by decide,
    (testing.isOkAndHolds_matches_iff Int (fun t : Int => decide (t = 666))
      (ErrorOr.mkValue 666) 666 0 (by decide)).2.2.2⟩

/-- C28: for every value `v` of `T`, every canonical code `c` other than `OK` and all integers
`l`, `n`, `s`, none of `ErrorIs(c)`, `ErrorIs(c, l)`, `ErrorIs(c, l, n)`, `ErrorIs(c, l, n, s)`
matches the `ErrorOr<T>` constructed from `v`. -/
theorem testing.errorIs_non_ok_rejects_value (T : Type) (v : T) (c : Code) (l n s : Int)
    (hc : c ≠ Code.OK) :
    (testing.ErrorIs1 c).MatchAndExplain (ErrorOr.mkValue v) = false ∧
      (testing.ErrorIs2 c l).MatchAndExplain (ErrorOr.mkValue v) = false ∧
      (testing.ErrorIs3 c l n).MatchAndExplain (ErrorOr.mkValue v) = false ∧
      (testing.ErrorIs4 c l n s).MatchAndExplain (ErrorOr.mkValue v) = false := by
  have key : ∀ l2 n2 s2 : Int,
      (testing.ErrorMatcher.mk4 c l2 n2 s2).MatchAndExplain (ErrorOr.mkValue v) = false := by
    intro l2 n2 s2
    cases hm : (testing.ErrorMatcher.mk4 c l2 n2 s2).MatchAndExplain (ErrorOr.mkValue v)
    · rfl
    · rw [testing.ErrorMatcher.match_errorOr_eq] at hm
      exact absurd (testing.ErrorMatcher.match_implies_code _ _ hm).symm hc
  exact ⟨key _ _ _, key _ _ _, key _ _ _, key _ _ _⟩

/-- Witness of C28 at the matcher and value of the test
`ErrorOrMatcherTest.WorksWhenErrorOrHoldsValue`. -/
theorem testing.errorIs_non_ok_rejects_value_witness :
    Code.INTERNAL_ERROR ≠ Code.OK ∧
      (testing.ErrorIs4 Code.INTERNAL_ERROR 13 42 66).MatchAndExplain
        (ErrorOr.mkValue (666 : Int)) = false :=
  ⟨by decide,
    (testing.errorIs_non_ok_rejects_value Int 666 Code.INTERNAL_ERROR 13 42 66
      (by decide)).2.2.2⟩

/-- C29: when every qualifier the caller supplies differs from the sentinel -1, for every code
`c` and Error `x`: `ErrorIs(c, l)` matches `x` exactly when the code and library number of `x`
are `c` and `l`; `ErrorIs(c, l, n)` matches `x` exactly when its code, library number and error
number are `c`, `l` and `n`; and `ErrorIs(c, l, n, s)` matches `x` exactly when
`x == Error(c, l, n, s)`. -/
theorem testing.errorIs_exact_on_supplied_qualifiers (c : Code) (l n s : Int) (x : Error) :
    (l ≠ -1 →
        ((testing.ErrorIs2 c l).MatchAndExplain x = true ↔
          (x.CanonicalCode = c ∧ x.LibraryNumber = l))) ∧
      (l ≠ -1 → n ≠ -1 →
        ((testing.ErrorIs3 c l n).MatchAndExplain x = true ↔
          (x.CanonicalCode = c ∧ x.LibraryNumber = l ∧ x.ErrorNumber = n))) ∧
      (l ≠ -1 → n ≠ -1 → s ≠ -1 →
        ((testing.ErrorIs4 c l n s).MatchAndExplain x = true ↔
          x.operator_eq (Error.mk4 c l n s) = true)) :=
  ⟨fun hl => testing.ErrorMatcher.match_library_only c l x hl,
    fun hl hn => testing.ErrorMatcher.match_library_and_error c l n x hl hn,
    fun _ _ hs => testing.ErrorMatcher.match_exact c l n s x (Or.inl hs)⟩

/-- Witness of C29 at the qualifiers 13, 42, 66 of the matcher tests: a mismatch in the library
number, a match whatever the subcode, and a mismatch in the subcode. -/
theorem testing.errorIs_exact_on_supplied_qualifiers_witness :
    ((13 : Int) + 1 ≠ -1 ∧ (13 : Int) ≠ -1 ∧ (42 : Int) ≠ -1 ∧ (66 : Int) + 1 ≠ -1) ∧
      ¬ ((testing.ErrorIs2 Code.INTERNAL_ERROR (13 + 1)).MatchAndExplain
          (Error.mk4 Code.INTERNAL_ERROR 13 42 66) = true) ∧
      (testing.ErrorIs3 Code.INTERNAL_ERROR 13 42).MatchAndExplain
          (Error.mk4 Code.INTERNAL_ERROR 13 42 66) = true ∧
      ¬ ((testing.ErrorIs4 Code.INTERNAL_ERROR 13 42 (66 + 1)).MatchAndExplain
          (Error.mk4 Code.INTERNAL_ERROR 13 42 66) = true) :=
  ⟨by decide,
    fun h => absurd (((testing.errorIs_exact_on_supplied_qualifiers Code.INTERNAL_ERROR
      (13 + 1) 42 66 (Error.mk4 Code.INTERNAL_ERROR 13 42 66)).1 (by decide)).mp h).2
      (by decide),
    ((testing.errorIs_exact_on_supplied_qualifiers Code.INTERNAL_ERROR 13 42 66
      (Error.mk4 Code.INTERNAL_ERROR 13 42 66)).2.1 (by decide) (by decide)).mpr
      ⟨rfl, rfl, rfl⟩,
    fun h => absurd (((testing.errorIs_exact_on_supplied_qualifiers Code.INTERNAL_ERROR
      13 42 (66 + 1) (Error.mk4 Code.INTERNAL_ERROR 13 42 66)).2.2 (by decide) (by decide)
      (by decide)).mp h) (by decide)⟩

/-! ## ErrorOr: the qualifiers of a collapsed error -/

/-- C30: OK-collapsing discards the qualifiers.  For all integers `l`, `n`, `s`, the
`ErrorOr<T>` constructed from `Error(OK, l, n, s)` has `GetError() == Error(UNKNOWN)`: code
`UNKNOWN` with library number, error number and subcode all -1, not `l`, `n`, `s`. -/
theorem ErrorOr.ok_collapse_discards_qualifiers (T : Type) [Inhabited T] (l n s : Int) :
    (ErrorOr.mkError (Error.mk4 Code.OK l n s) : ErrorOr T).GetError = Error.mk1 Code.UNKNOWN ∧
      (ErrorOr.mkError (Error.mk4 Code.OK l n s) : ErrorOr T).GetError.operator_eq
        (Error.mk1 Code.UNKNOWN) = true ∧
      ((ErrorOr.mkError (Error.mk4 Code.OK l n s) : ErrorOr T).GetError.CanonicalCode
          = Code.UNKNOWN ∧
        (ErrorOr.mkError (Error.mk4 Code.OK l n s) : ErrorOr T).GetError.LibraryNumber = -1 ∧
        (ErrorOr.mkError (Error.mk4 Code.OK l n s) : ErrorOr T).GetError.ErrorNumber = -1 ∧
        (ErrorOr.mkError (Error.mk4 Code.OK l n s) : ErrorOr T).GetError.Subcode = -1) := by
  have key : (ErrorOr.mkError (Error.mk4 Code.OK l n s) : ErrorOr T).GetError
      = Error.mk1 Code.UNKNOWN :=
    ErrorOr.mkError_of_ok _ rfl
  rw [key]
  decide

/-! ## The abort of `ValueOrDie` and the library's own uses of it -/

/-- C31: the abort of `ValueOrDie` is unreachable from the library's own uses of it.  For every
`ErrorOr<T>` object `x`: the expansion of `ASSIGN_OR_RETURN` (and of `ASSIGN_OR_RETURN_IMPL`)
never aborts, it returns `x.GetError()` when `x` is not Ok and otherwise continues with the
stored value, the call of `ValueOrDie` on that path returning normally; a function body
`ASSIGN_OR_RETURN(v, x); return f(v);` and the three functions of `error_macros_test.cc` built
from the macro always return; and `ErrorOrValueMatcher::MatchAndExplain` (`IsOkAndHolds`) always
returns a verdict, `false` when `x` is not Ok. -/
theorem abort_unreachable_from_library_uses (T R : Type) [ReturnsAs Error R] (x : ErrorOr T)
    (f : T → R) (p : T → Bool) (code : Code) (u : Int) :
    ((ASSIGN_OR_RETURN x : Step R T) ≠ Step.aborted ∧
        (ASSIGN_OR_RETURN_IMPL x : Step R T) ≠ Step.aborted ∧
        (x.Ok = false →
          (ASSIGN_OR_RETURN x : Step R T) = Step.returned (ReturnsAs.toReturn x.GetError)) ∧
        (x.Ok = true →
          x.ValueOrDie = some x.value_ ∧ (ASSIGN_OR_RETURN x : Step R T) = Step.next x.value_)) ∧
      (Step.run ((ASSIGN_OR_RETURN x : Step R T) >>= fun v => Step.returned (f v)) ≠ none ∧
        error_macros_test.AssignOrForwardError code ≠ none ∧
        error_macros_test.ReturnOrForwardError code ≠ none ∧
        error_macros_test.ReturnFromPredefined u code ≠ none) ∧
      ((testing.IsOkAndHolds p).MatchAndExplain x ≠ none ∧
        (x.Ok = false → (testing.IsOkAndHolds p).MatchAndExplain x = some false) ∧
        (x.Ok = true →
          (testing.IsOkAndHolds p).MatchAndExplain x = some (p x.value_))) := by
  refine ⟨?_, ⟨?_, ?_, ?_, ?_⟩, ?_⟩
  · cases hok : x.Ok <;>
      simp [ASSIGN_OR_RETURN, ASSIGN_OR_RETURN_IMPL, ErrorOr.ValueOrDie, Step.ofCall, hok]
  · cases hok : x.Ok <;>
      simp [ASSIGN_OR_RETURN, ASSIGN_OR_RETURN_IMPL, ErrorOr.ValueOrDie, Step.ofCall, Step.run,
        Step.bind, bind, hok]
  · cases code <;> exact Option.some_ne_none _
  · cases code <;> exact Option.some_ne_none _
  · cases code <;> exact Option.some_ne_none _
  · cases hok : x.Ok <;>
      simp [testing.IsOkAndHolds, testing.ErrorOrValueMatcher.MatchAndExplain,
        ErrorOr.ValueOrDie, hok]

/-- Witness of C31 at the default-constructed `ErrorOr<int>`, on which `ValueOrDie` itself
aborts: `ASSIGN_OR_RETURN` in a function returning `Error` returns `Error(UNKNOWN)`, and
`IsOkAndHolds` with "equal to 0" answers `false`. -/
theorem abort_unreachable_from_library_uses_witness :
    (ErrorOr.mkDefault : ErrorOr Int).ValueOrDie = none ∧
      (ASSIGN_OR_RETURN (ErrorOr.mkDefault : ErrorOr Int) : Step Error Int)
        = Step.returned (Error.mk1 Code.UNKNOWN) ∧
      (testing.IsOkAndHolds (fun t : Int => decide (t = 0))).MatchAndExplain
        (ErrorOr.mkDefault : ErrorOr Int) = some false :=
  ⟨by decide,
    (abort_unreachable_from_library_uses Int Error ErrorOr.mkDefault (fun _ => Error.mk0)
      (fun t : Int => decide (t = 0)) Code.OK 0).1.2.2.1 (by decide),
    (abort_unreachable_from_library_uses Int Error ErrorOr.mkDefault (fun _ => Error.mk0)
      (fun t : Int => decide (t = 0)) Code.OK 0).2.2.2.1 (by decide)⟩

end error
